import Mathlib

/-!
Shallow embedding of the weather-monitoring backend (Python source under
backend/app) for checking the natural-language specification.

Modelling conventions:
- Python floats are modelled as rationals.  The numeric claims checked here
  only involve exact comparisons, sums, divisions and order, never
  float-specific rounding behaviour.
- MongoDB datetimes are modelled as integers (alert clock, minutes) or
  naturals (observation timestamps, minutes since epoch).  Truncating a
  timestamp to the hour is division by 60, to the calendar day division by
  1440; lexicographic order on the ISO strings used as bucket keys in the
  source coincides with numeric order on these keys.
- A MongoDB collection is a list of documents; insert_one appends,
  find filters, sort descending is insertionSort with the reversed order
  (stable, like Python sorted), find_one with a sort picks the maximal
  element (first stored wins ties, which Mongo leaves unspecified).
- Purely presentational fields (message strings, metadata dictionaries,
  weather icon and description, clouds, visibility, sunrise, sunset) are
  not modelled; no claim mentions them.
- Store failures (motor exceptions) are modelled explicitly with Except in
  the Fx variants of the service operations; the pure variants model the
  same control flow on a store that does not fail.
-/

namespace WeatherPy

/-! ### Data model (backend/app/models) -/

/-- Alert type enumeration from models/alert.py. -/
inductive AlertType where
  | HIGH_TEMPERATURE
  | LOW_TEMPERATURE
  | HIGH_HUMIDITY
  | EXTREME_WEATHER
  | WIND_SPEED
  | VISIBILITY
deriving DecidableEq, Repr

/-- Alert severity levels from models/alert.py. -/
inductive AlertSeverity where
  | info
  | warning
  | critical
deriving DecidableEq, Repr

/-- AlertCondition from models/alert.py. -/
structure AlertCondition where
  threshold_type : String
  threshold_value : ℚ
  actual_value : ℚ
  operator : String
  unit : Option String
deriving DecidableEq, Repr

/-- AlertLog document from models/alert.py.  The acknowledged_by field is
not declared in the pydantic model but is written by the acknowledge
update (the collection is schemaless); it is carried here as an optional
field that is absent (none) on creation. -/
structure AlertLog where
  city : String
  alert_type : AlertType
  severity : AlertSeverity
  triggered_at : ℤ
  condition : AlertCondition
  is_acknowledged : Bool
  acknowledged_at : Option ℤ
  acknowledged_by : Option String
deriving DecidableEq, Repr

/-- Raw weather observation document (models/weather.py), restricted to the
fields the modelled operations read.  Numeric fields are the values after
the safe_float coercion applied at every read site (missing or malformed
values become 0 there, so a document is fully described by the coerced
values). -/
structure WeatherObs where
  city : String
  timestamp : ℕ
  temp_current : ℚ
  temp_min : ℚ
  temp_max : ℚ
  feels_like : ℚ
  humidity : ℚ
  pressure : ℚ
  weather_main : String
  wind_speed : ℚ
  is_deleted : Bool
deriving DecidableEq, Repr

/-- Settings fields used by the alert evaluator
(infrastructure/config/settings.py). -/
structure Settings where
  ALERT_TEMP_HIGH : ℚ
  ALERT_TEMP_LOW : ℚ
  ALERT_HUMIDITY_HIGH : ℚ
  ALERT_EXTREME_WEATHER : List String
  ALERT_COOLDOWN_MINUTES : ℤ
deriving Repr

/-- Default values of the alert settings (settings.py). -/
def defaultSettings : Settings :=
  { ALERT_TEMP_HIGH := 35
    ALERT_TEMP_LOW := 5
    ALERT_HUMIDITY_HIGH := 80
    ALERT_EXTREME_WEATHER := ["Storm", "Thunderstorm", "Tornado", "Hurricane"]
    ALERT_COOLDOWN_MINUTES := 60 }

/-! ### Weather repository (repositories/weather_repository.py) -/

/-- Pick the document with the maximal timestamp, first stored wins ties;
this is find_one with sort timestamp descending. -/
def latestIn : List WeatherObs → Option WeatherObs
  | [] => none
  | o :: rest =>
    match latestIn rest with
    | none => some o
    | some b => if b.timestamp ≤ o.timestamp then some o else some b

/-- get_latest_weather: most recent document with this city and
is_deleted false. -/
def get_latest_weather (db : List WeatherObs) (city : String) : Option WeatherObs :=
  latestIn (db.filter (fun o => o.city == city && !o.is_deleted))

/-- get_weather_by_time_range: city, timestamp between start and stop
inclusive, is_deleted false, sorted by timestamp descending, optionally
limited. -/
def get_weather_by_time_range (db : List WeatherObs) (city : String)
    (start stop : ℕ) (limit : Option ℕ) : List WeatherObs :=
  let docs := (db.filter
      (fun o => o.city == city && start ≤ o.timestamp && o.timestamp ≤ stop
        && !o.is_deleted)).insertionSort (fun a b => b.timestamp ≤ a.timestamp)
  match limit with
  | some n => docs.take n
  | none => docs

/-- Result row of the get_weather_stats aggregation group stage. -/
structure WeatherStatsDoc where
  temp_avg : ℚ
  temp_min : ℚ
  temp_max : ℚ
  humidity_avg : ℚ
  humidity_min : ℚ
  humidity_max : ℚ
  pressure_avg : ℚ
  wind_speed_avg : ℚ
  count : ℕ
deriving DecidableEq, Repr

/-- Mean of a list of rationals; 0 on the empty list (Mongo avg of an
empty group never arises because the group stage emits no row then). -/
def ratAvg (l : List ℚ) : ℚ := l.sum / l.length

/-- Minimum of a list of rationals, 0 on the empty list. -/
def listMin : List ℚ → ℚ
  | [] => 0
  | h :: t => t.foldl min h

/-- Maximum of a list of rationals, 0 on the empty list. -/
def listMax : List ℚ → ℚ
  | [] => 0
  | h :: t => t.foldl max h

/-- Group stage of get_weather_stats over the matched documents: an
empty match set yields no row, which the Python code returns as an empty
dict (none here). -/
def statsOfMatched (matched : List WeatherObs) : Option WeatherStatsDoc :=
  if matched.isEmpty then none
  else some
    { temp_avg := ratAvg (matched.map (·.temp_current))
      temp_min := listMin (matched.map (·.temp_min))
      temp_max := listMax (matched.map (·.temp_max))
      humidity_avg := ratAvg (matched.map (·.humidity))
      humidity_min := listMin (matched.map (·.humidity))
      humidity_max := listMax (matched.map (·.humidity))
      pressure_avg := ratAvg (matched.map (·.pressure))
      wind_speed_avg := ratAvg (matched.map (·.wind_speed))
      count := matched.length }

/-- get_weather_stats: match city, timestamp in range, is_deleted false,
then group to averages, minima, maxima and count. -/
def get_weather_stats (db : List WeatherObs) (city : String)
    (start stop : ℕ) : Option WeatherStatsDoc :=
  statsOfMatched (db.filter
    (fun o => o.city == city && start ≤ o.timestamp && o.timestamp ≤ stop
      && !o.is_deleted))

/-- get_weather_distribution: match city, timestamp at or after the
cutoff, is_deleted false, group by weather_main with counts, sort by
count descending.  The group stage emits one row per distinct condition
in first-encounter order before the sort (Mongo leaves this order
unspecified). -/
def distributionOfMatched (matched : List WeatherObs) : List (String × ℕ) :=
  let mains := (matched.map (·.weather_main)).dedup
  (mains.map (fun m => (m, matched.countP (fun o => o.weather_main == m)))).insertionSort
    (fun a b => b.2 ≤ a.2)

/-- get_weather_distribution applies the group-and-sort stage to the
matched documents. -/
def get_weather_distribution (db : List WeatherObs) (city : String)
    (cutoff : ℕ) : List (String × ℕ) :=
  distributionOfMatched (db.filter
    (fun o => o.city == city && cutoff ≤ o.timestamp && !o.is_deleted))

/-- soft_delete_old_records: set is_deleted on every document with
timestamp strictly before the cutoff that is not already deleted; the
returned count is the number of documents modified. -/
def soft_delete_old_records (db : List WeatherObs) (cutoff : ℕ) :
    ℕ × List WeatherObs :=
  (db.countP (fun o => o.timestamp < cutoff && !o.is_deleted),
   db.map (fun o =>
     if o.timestamp < cutoff && !o.is_deleted then { o with is_deleted := true }
     else o))

/-! ### Alert repository (repositories/alert_repository.py) -/

/-- check_recent_similar_alert: count documents of this city and alert
type with triggered_at at or after now minus the cooldown, and report
whether the count is positive. -/
def check_recent_similar_alert (db : List AlertLog) (city : String)
    (ty : AlertType) (now minutes : ℤ) : Bool :=
  decide (0 < db.countP
    (fun a => a.city == city && a.alert_type == ty
      && decide (now - minutes ≤ a.triggered_at)))

/-- insert_alert: append the document and return its id (modelled as the
insertion index). -/
def insert_alert (db : List AlertLog) (a : AlertLog) : ℕ × List AlertLog :=
  (db.length, db ++ [a])

/-! ### Alert service (services/alert_service.py)

The four private check methods share one shape: read a value from the
latest observation, compare against the configured threshold, query the
cooldown, and insert an AlertLog whose city, alert_type and triggered_at
are fixed by the method while severity and condition depend on the
observation.  That shared shape is the rule runner below; the four
RuleSpec values carry exactly the per-method differences. -/

/-- One threshold rule of the alert service. -/
structure RuleSpec where
  ty : AlertType
  trip : Settings → WeatherObs → Bool
  severity : Settings → WeatherObs → AlertSeverity
  cond : Settings → WeatherObs → AlertCondition

/-- The AlertLog document one rule check constructs: city, alert_type and
triggered_at are fixed by the method, severity and condition come from
the rule, the acknowledge fields take their defaults. -/
def mkRuleAlert (r : RuleSpec) (s : Settings) (now : ℤ) (city : String)
    (w : WeatherObs) : AlertLog :=
  { city := city
    alert_type := r.ty
    severity := r.severity s w
    triggered_at := now
    condition := r.cond s w
    is_acknowledged := false
    acknowledged_at := none
    acknowledged_by := none }

/-- Shared body of the per-rule check methods: on a tripped condition and
a cold cooldown, build and insert the alert and return its id. -/
def run_rule_check (r : RuleSpec) (s : Settings) (now : ℤ) (city : String)
    (w : WeatherObs) (db : List AlertLog) : Option ℕ × List AlertLog :=
  if r.trip s w then
    if check_recent_similar_alert db city r.ty now s.ALERT_COOLDOWN_MINUTES then
      (none, db)
    else
      let (i, db') := insert_alert db (mkRuleAlert r s now city w)
      (some i, db')
  else (none, db)

/-- check_high_temperature: trips when the current temperature strictly
exceeds ALERT_TEMP_HIGH; warning below threshold plus five, critical from
there on. -/
def highTemperatureRule : RuleSpec :=
  { ty := .HIGH_TEMPERATURE
    trip := fun s w => decide (s.ALERT_TEMP_HIGH < w.temp_current)
    severity := fun s w =>
      if w.temp_current < s.ALERT_TEMP_HIGH + 5 then .warning else .critical
    cond := fun s w =>
      { threshold_type := "temperature"
        threshold_value := s.ALERT_TEMP_HIGH
        actual_value := w.temp_current
        operator := ">"
        unit := some "°C" } }

/-- check_low_temperature: trips strictly below ALERT_TEMP_LOW; warning
above threshold minus five, critical from there down. -/
def lowTemperatureRule : RuleSpec :=
  { ty := .LOW_TEMPERATURE
    trip := fun s w => decide (w.temp_current < s.ALERT_TEMP_LOW)
    severity := fun s w =>
      if s.ALERT_TEMP_LOW - 5 < w.temp_current then .warning else .critical
    cond := fun s w =>
      { threshold_type := "temperature"
        threshold_value := s.ALERT_TEMP_LOW
        actual_value := w.temp_current
        operator := "<"
        unit := some "°C" } }

/-- check_high_humidity: trips strictly above ALERT_HUMIDITY_HIGH; info
below threshold plus ten, warning from there on. -/
def highHumidityRule : RuleSpec :=
  { ty := .HIGH_HUMIDITY
    trip := fun s w => decide (s.ALERT_HUMIDITY_HIGH < w.humidity)
    severity := fun s w =>
      if w.humidity < s.ALERT_HUMIDITY_HIGH + 10 then .info else .warning
    cond := fun s w =>
      { threshold_type := "humidity"
        threshold_value := s.ALERT_HUMIDITY_HIGH
        actual_value := w.humidity
        operator := ">"
        unit := some "%" } }

/-- check_extreme_weather: trips when the condition main is in the
configured extreme set; always critical, placeholder condition values. -/
def extremeWeatherRule : RuleSpec :=
  { ty := .EXTREME_WEATHER
    trip := fun s w => decide (w.weather_main ∈ s.ALERT_EXTREME_WEATHER)
    severity := fun _ _ => .critical
    cond := fun _ _ =>
      { threshold_type := "weather_condition"
        threshold_value := 0
        actual_value := 0
        operator := "in"
        unit := none } }

/-- The four rules in the order check_and_create_alerts evaluates them. -/
def alertRules : List RuleSpec :=
  [highTemperatureRule, lowTemperatureRule, highHumidityRule, extremeWeatherRule]

/-- Evaluate the rules in order against one observation, threading the
alert store and collecting the created ids in order. -/
def run_rule_checks : List RuleSpec → Settings → ℤ → String → WeatherObs →
    List AlertLog → List ℕ × List AlertLog
  | [], _, _, _, _, db => ([], db)
  | r :: rs, s, now, city, w, db =>
    let (oid, db1) := run_rule_check r s now city w db
    let (ids, db2) := run_rule_checks rs s now city w db1
    (match oid with
     | some i => i :: ids
     | none => ids, db2)

/-- check_and_create_alerts on a store that does not fail: fetch the
latest observation for the city; with none, return no ids; otherwise run
the four rule checks in order. -/
def check_and_create_alerts (s : Settings) (now : ℤ) (city : String)
    (wdb : List WeatherObs) (adb : List AlertLog) : List ℕ × List AlertLog :=
  match get_latest_weather wdb city with
  | none => ([], adb)
  | some w => run_rule_checks alertRules s now city w adb

/-! ### Dashboard service (services/dashboard_service.py) -/

/-- Truncating a timestamp to its hour bucket (replace minute, second and
microsecond by zero in the source). -/
def hourKeyOf (o : WeatherObs) : ℕ := o.timestamp / 60

/-- Truncating a timestamp to its calendar-day bucket (the YYYY-MM-DD
string key in the source; string order on those keys is day order). -/
def dayKeyOf (o : WeatherObs) : ℕ := o.timestamp / 1440

/-- One hourly trend point (models/dashboard.py HourlyTrend). -/
structure HourlyTrend where
  hour : ℕ
  temperature : ℚ
  humidity : ℚ
  weather_main : String
  wind_speed : ℚ
deriving DecidableEq, Repr

/-- One daily trend point (models/dashboard.py DailyTrend). -/
structure DailyTrend where
  date : ℕ
  temp_avg : ℚ
  temp_min : ℚ
  temp_max : ℚ
  humidity_avg : ℚ
  weather_main : String
  records_count : ℕ
deriving DecidableEq, Repr

/-- Descending order on bucket keys, the reverse=True sort of the
source. -/
def geKey (a b : ℕ) : Prop := b ≤ a

instance : DecidableRel geKey := fun a b => inferInstanceAs (Decidable (b ≤ a))

instance : IsTotal ℕ geKey := ⟨fun a b => Nat.le_total b a⟩

instance : IsTrans ℕ geKey := ⟨fun _ _ _ h1 h2 => Nat.le_trans h2 h1⟩

/-- Rounding to one decimal place.  Python round uses round-half-to-even
on floats; the claims checked here never depend on the rounded values, so
round-half-up on rationals stands in for it. -/
def round1 (x : ℚ) : ℚ := (round (x * 10) : ℤ) / 10

/-- safe_int on a numeric value: int() truncates toward zero. -/
def pyInt (x : ℚ) : ℤ := if 0 ≤ x then ⌊x⌋ else ⌈x⌉

/-- Most common entry of a list: max over the distinct entries keyed by
count, first encountered wins ties (the source iterates a Python set
here, whose order is unspecified; this model fixes first-encounter
order). -/
def mostCommon (l : List String) : String :=
  match l.dedup with
  | [] => "Unknown"
  | c :: rest => rest.foldl (fun best x => if l.count best < l.count x then x else best) c

/-- Records of one hour bucket. -/
def hour_bucket (data : List WeatherObs) (k : ℕ) : List WeatherObs :=
  data.filter (fun o => hourKeyOf o == k)

/-- Per-hour aggregation of generate_hourly_trend: mean temperature,
humidity and wind speed, most common condition. -/
def aggregate_hour (data : List WeatherObs) (k : ℕ) : HourlyTrend :=
  let records := hour_bucket data k
  { hour := k
    temperature := round1 (ratAvg (records.map (·.temp_current)))
    humidity := round1 (ratAvg (records.map (·.humidity)))
    weather_main := mostCommon (records.map (·.weather_main))
    wind_speed := round1 (ratAvg (records.map (·.wind_speed))) }

/-- Order of hourly trend points used by the final chart sort. -/
def hourLE (a b : HourlyTrend) : Prop := a.hour ≤ b.hour

instance : DecidableRel hourLE := fun a b => inferInstanceAs (Decidable (a.hour ≤ b.hour))

instance : IsTotal HourlyTrend hourLE := ⟨fun a b => Nat.le_total a.hour b.hour⟩

instance : IsTrans HourlyTrend hourLE := ⟨fun _ _ _ h1 h2 => Nat.le_trans h1 h2⟩

/-- generate_hourly_trend: group the fetched records by hour, keep the 24
most recent buckets of the descending key sort, aggregate each, and emit
the points sorted by hour ascending. -/
def generate_hourly_trend (data : List WeatherObs) : List HourlyTrend :=
  if data.isEmpty then []
  else
    let keys := (List.insertionSort geKey (data.map hourKeyOf).dedup).take 24
    List.insertionSort hourLE (keys.map (aggregate_hour data))

/-- Records of one calendar-day bucket. -/
def day_bucket (data : List WeatherObs) (k : ℕ) : List WeatherObs :=
  data.filter (fun o => dayKeyOf o == k)

/-- Per-day aggregation of generate_daily_trend: mean of current
temperatures and humidities, minimum of per-record minima, maximum of
per-record maxima, most common condition, record count. -/
def aggregate_day (data : List WeatherObs) (k : ℕ) : DailyTrend :=
  let records := day_bucket data k
  { date := k
    temp_avg := round1 (ratAvg (records.map (·.temp_current)))
    temp_min := round1 (listMin (records.map (·.temp_min)))
    temp_max := round1 (listMax (records.map (·.temp_max)))
    humidity_avg := round1 (ratAvg (records.map (·.humidity)))
    weather_main := mostCommon (records.map (·.weather_main))
    records_count := records.length }

/-- Order of daily trend points used by the final chart sort. -/
def dayLE (a b : DailyTrend) : Prop := a.date ≤ b.date

instance : DecidableRel dayLE := fun a b => inferInstanceAs (Decidable (a.date ≤ b.date))

instance : IsTotal DailyTrend dayLE := ⟨fun a b => Nat.le_total a.date b.date⟩

instance : IsTrans DailyTrend dayLE := ⟨fun _ _ _ h1 h2 => Nat.le_trans h1 h2⟩

/-- generate_daily_trend: group by calendar day, keep the most recent
days buckets of the descending key sort, aggregate each, and emit the
points sorted by date ascending. -/
def generate_daily_trend (data : List WeatherObs) (days : ℕ) : List DailyTrend :=
  if data.isEmpty then []
  else
    let keys := (List.insertionSort geKey (data.map dayKeyOf).dedup).take days
    List.insertionSort dayLE (keys.map (aggregate_day data))

/-- Current weather snapshot (models/dashboard.py CurrentWeather),
restricted to the modelled observation fields. -/
structure CurrentWeather where
  temperature : ℚ
  feels_like : ℚ
  humidity : ℚ
  pressure : ℤ
  weather_main : String
  wind_speed : ℚ
deriving DecidableEq, Repr

/-- build_current_weather from the latest observation. -/
def build_current_weather (w : WeatherObs) : CurrentWeather :=
  { temperature := w.temp_current
    feels_like := w.feels_like
    humidity := w.humidity
    pressure := pyInt w.pressure
    weather_main := w.weather_main
    wind_speed := w.wind_speed }

/-- Aggregated statistics for today (models/dashboard.py TodayStats). -/
structure TodayStats where
  temp_avg : ℚ
  temp_min : ℚ
  temp_max : ℚ
  humidity_avg : ℚ
  humidity_min : ℚ
  humidity_max : ℚ
  pressure_avg : ℤ
  wind_speed_avg : ℚ
  records_count : ℕ
deriving DecidableEq, Repr

/-- The all-zero TodayStats the service substitutes when the stats query
returns nothing or raises. -/
def zeroTodayStats : TodayStats :=
  { temp_avg := 0, temp_min := 0, temp_max := 0, humidity_avg := 0,
    humidity_min := 0, humidity_max := 0, pressure_avg := 0,
    wind_speed_avg := 0, records_count := 0 }

/-- Rounded TodayStats built from one stats row. -/
def today_stats_of (st : WeatherStatsDoc) : TodayStats :=
  { temp_avg := round1 st.temp_avg
    temp_min := round1 st.temp_min
    temp_max := round1 st.temp_max
    humidity_avg := round1 st.humidity_avg
    humidity_min := round1 st.humidity_min
    humidity_max := round1 st.humidity_max
    pressure_avg := pyInt st.pressure_avg
    wind_speed_avg := round1 st.wind_speed_avg
    records_count := st.count }

/-- generate_today_stats on a store that does not fail: aggregate over
the UTC day window; an empty result yields the zero defaults. -/
def generate_today_stats (db : List WeatherObs) (city : String)
    (today_start today_end : ℕ) : TodayStats :=
  match get_weather_stats db city today_start today_end with
  | none => zeroTodayStats
  | some st => today_stats_of st

/-- Dashboard summary document (models/dashboard.py DashboardSummary). -/
structure DashboardSummary where
  city : String
  summary_type : String
  generated_at : ℕ
  current_weather : CurrentWeather
  today_stats : TodayStats
  hourly_trend : List HourlyTrend
  daily_trend : List DailyTrend
  weather_distribution : List (String × ℕ)
deriving DecidableEq, Repr

/-- generate_dashboard_summary on a store that does not fail: return
nothing when the city has no latest observation, otherwise assemble the
snapshot from today stats over the UTC day, the 24 hour trend, the 7 day
trend and the condition distribution. -/
def generate_dashboard_summary (now : ℕ) (wdb : List WeatherObs)
    (city : String) : Option DashboardSummary :=
  match get_latest_weather wdb city with
  | none => none
  | some w =>
    let today_start := now / 1440 * 1440
    some
      { city := city
        summary_type := "hourly"
        generated_at := now
        current_weather := build_current_weather w
        today_stats := generate_today_stats wdb city today_start (today_start + 1440)
        hourly_trend := generate_hourly_trend
          (get_weather_by_time_range wdb city (now - 24 * 60) now none)
        daily_trend := generate_daily_trend
          (get_weather_by_time_range wdb city (now - 7 * 1440) now none) 7
        weather_distribution := get_weather_distribution wdb city (now - 24 * 60) }

/-! ### Dashboard repository (repositories/dashboard_repository.py) -/

/-- upsert_summary: replace_one with upsert keyed on (city,
summary_type): replace the first matching document, else append. -/
def upsert_summary : List DashboardSummary → DashboardSummary → List DashboardSummary
  | [], s => [s]
  | d :: rest, s =>
    if d.city == s.city && d.summary_type == s.summary_type then s :: rest
    else d :: upsert_summary rest s

/-- Pick the document with the maximal generated_at, first stored wins
ties; this is find_one with sort generated_at descending. -/
def latestGenIn : List DashboardSummary → Option DashboardSummary
  | [] => none
  | d :: rest =>
    match latestGenIn rest with
    | none => some d
    | some b => if b.generated_at ≤ d.generated_at then some d else some b

/-- get_latest_summary for one (city, summary_type) key. -/
def get_latest_summary (db : List DashboardSummary) (city stype : String) :
    Option DashboardSummary :=
  latestGenIn (db.filter (fun d => d.city == city && d.summary_type == stype))

/-! ### Dashboard task (tasks/dashboard_tasks.py) -/

/-- Outcome of the populate_dashboard_summary task. -/
inductive TaskStatus where
  | no_data
  | success
deriving DecidableEq, Repr

/-- populate_dashboard_summary on a store that does not fail: generate
the summary; with none, report no_data and save nothing; otherwise save
through the upsert and report success. -/
def populate_dashboard_summary (now : ℕ) (wdb : List WeatherObs)
    (sdb : List DashboardSummary) (city : String) :
    TaskStatus × List DashboardSummary :=
  match generate_dashboard_summary now wdb city with
  | none => (.no_data, sdb)
  | some s => (.success, upsert_summary sdb s)

/-! ### Acknowledge operation (api/alerts/alert_repository.py and
api/alerts/alert_service.py)

The repository layer applies one update that sets is_acknowledged,
acknowledged_by and acknowledged_at on the document with the given id and
reports whether a document was modified; the service layer turns a false
report (no such id, or the update modified zero documents) into
NotFoundException.  Alert ids are modelled as list positions. -/

/-- The update applied by the acknowledge operation. -/
def ack_update (a : AlertLog) (user : String) (now : ℤ) : AlertLog :=
  { a with is_acknowledged := true
           acknowledged_by := some user
           acknowledged_at := some now }

/-- Repository acknowledge_alert: update_one on the id filter; the
success report is modified_count positive, which holds exactly when the
document exists and the update changes it. -/
def acknowledge_alert (db : List AlertLog) (i : ℕ) (user : String)
    (now : ℤ) : Bool × List AlertLog :=
  match db[i]? with
  | none => (false, db)
  | some a => (decide (ack_update a user now ≠ a), db.set i (ack_update a user now))

/-- NotFound marker for the failing acknowledge path. -/
inductive NotFoundErr where
  | notFound
deriving DecidableEq, Repr

/-- Service acknowledge_alert: raise NotFoundException when the
repository reports no modification, otherwise return the updated
store. -/
def acknowledge_alert_service (db : List AlertLog) (i : ℕ) (user : String)
    (now : ℤ) : Except NotFoundErr (List AlertLog) :=
  let (ok, db') := acknowledge_alert db i user now
  if ok then .ok db' else .error .notFound

/-! ### Store-failure models

The Fx variants make the store calls of one service operation explicit as
Except-valued outcomes so that the try/except structure of the Python
code is visible: a catch block is a match on the error case.  Each
behaviour field is the outcome of one store call the operation makes. -/

/-- Outcomes of the store calls made by one check_and_create_alerts
run. -/
structure AlertStoreBehavior where
  latest : Except Unit (Option WeatherObs)
  cooldown : AlertType → Except Unit Bool
  insert : AlertType → Except Unit ℕ

/-- Per-rule check under store failures: the method-level try/except
turns any store error inside this one rule into a no-alert result. -/
def run_rule_check_fx (r : RuleSpec) (s : Settings) (b : AlertStoreBehavior)
    (w : WeatherObs) : Option ℕ :=
  if r.trip s w then
    match b.cooldown r.ty with
    | .error _ => none
    | .ok true => none
    | .ok false =>
      match b.insert r.ty with
      | .error _ => none
      | .ok i => some i
  else none

/-- Body of check_and_create_alerts before the outer try/except: the
latest-observation fetch may fail, and each rule contributes its id when
it created an alert. -/
def check_and_create_alerts_fx_body (s : Settings) (b : AlertStoreBehavior) :
    Except Unit (List ℕ) :=
  match b.latest with
  | .error e => .error e
  | .ok none => .ok []
  | .ok (some w) => .ok ((alertRules.map (fun r => run_rule_check_fx r s b w)).filterMap id)

/-- check_and_create_alerts under store failures: the outer except block
turns any escaped error into the empty id list. -/
def check_and_create_alerts_fx (s : Settings) (b : AlertStoreBehavior) : List ℕ :=
  match check_and_create_alerts_fx_body s b with
  | .error _ => []
  | .ok ids => ids

/-- Outcomes of the store calls made by one generate_dashboard_summary
run. -/
structure DashStoreBehavior where
  latest : Except Unit (Option WeatherObs)
  todayStats : Except Unit (Option WeatherStatsDoc)
  hourlyData : Except Unit (List WeatherObs)
  dailyData : Except Unit (List WeatherObs)
  distribution : Except Unit (List (String × ℕ))

/-- generate_today_stats under store failures: its own except block turns
a failed stats query into the zero defaults, the same value an empty
query yields. -/
def generate_today_stats_fx (r : Except Unit (Option WeatherStatsDoc)) : TodayStats :=
  match r with
  | .error _ => zeroTodayStats
  | .ok none => zeroTodayStats
  | .ok (some st) => today_stats_of st

/-- generate_hourly_trend under store failures: its own except block
turns a failed range query into an empty trend. -/
def generate_hourly_trend_fx (r : Except Unit (List WeatherObs)) : List HourlyTrend :=
  match r with
  | .error _ => []
  | .ok data => generate_hourly_trend data

/-- generate_daily_trend under store failures: its own except block turns
a failed range query into an empty trend. -/
def generate_daily_trend_fx (r : Except Unit (List WeatherObs)) : List DailyTrend :=
  match r with
  | .error _ => []
  | .ok data => generate_daily_trend data 7

/-- generate_dashboard_summary under store failures: the latest fetch and
the distribution query have no inner catch, so their errors reach the
outer except block and the build yields nothing; the three sub-steps
above catch their own errors and contribute defaults instead. -/
def generate_dashboard_summary_fx (now : ℕ) (city : String)
    (b : DashStoreBehavior) : Option DashboardSummary :=
  match b.latest with
  | .error _ => none
  | .ok none => none
  | .ok (some w) =>
    let today := generate_today_stats_fx b.todayStats
    let hourly := generate_hourly_trend_fx b.hourlyData
    let daily := generate_daily_trend_fx b.dailyData
    match b.distribution with
    | .error _ => none
    | .ok dist =>
      some
        { city := city
          summary_type := "hourly"
          generated_at := now
          current_weather := build_current_weather w
          today_stats := today
          hourly_trend := hourly
          daily_trend := daily
          weather_distribution := dist }

/-! ### Concrete data used by scenario theorems and witnesses -/

/-- The latest observation of the high-temperature scenario. -/
def puneObs : WeatherObs :=
  { city := "Pune", timestamp := 1000, temp_current := 36.5, temp_min := 30,
    temp_max := 38, feels_like := 37, humidity := 70, pressure := 1010,
    weather_main := "Clear", wind_speed := 3, is_deleted := false }

/-- An unremarkable observation used by the failure-injection data. -/
def cexObs : WeatherObs :=
  { city := "Pune", timestamp := 900, temp_current := 20, temp_min := 18,
    temp_max := 22, feels_like := 20, humidity := 50, pressure := 1000,
    weather_main := "Clouds", wind_speed := 2, is_deleted := false }

/-- An observation of a different city. -/
def berlinObs : WeatherObs :=
  { city := "Berlin", timestamp := 100, temp_current := 10, temp_min := 8,
    temp_max := 12, feels_like := 9, humidity := 60, pressure := 1020,
    weather_main := "Rain", wind_speed := 5, is_deleted := false }

/-- A dashboard store behaviour whose today-stats aggregation fails while
everything else succeeds. -/
def cexDashBehavior : DashStoreBehavior :=
  { latest := .ok (some cexObs)
    todayStats := .error ()
    hourlyData := .ok [cexObs]
    dailyData := .ok [cexObs]
    distribution := .ok [("Clouds", 1)] }

/-! ### Claim theorems -/

/-- C9: running soft_delete_old_records twice with the same cutoff leaves
nothing for the second run: the first run marks every matching record
deleted, so the second run counts zero modified records. -/
theorem soft_delete_idempotent (db : List WeatherObs) (cutoff : ℕ) :
    (∀ o ∈ (soft_delete_old_records db cutoff).2,
      o.timestamp < cutoff → o.is_deleted = true) ∧
    (soft_delete_old_records (soft_delete_old_records db cutoff).2 cutoff).1 = 0 := by
  have h1 : ∀ o ∈ (soft_delete_old_records db cutoff).2,
      o.timestamp < cutoff → o.is_deleted = true := by
    intro o ho hlt
    simp only [soft_delete_old_records, List.mem_map] at ho
    obtain ⟨x, hx, hxo⟩ := ho
    by_cases h : (decide (x.timestamp < cutoff) && !x.is_deleted) = true
    · rw [if_pos h] at hxo
      subst hxo
      rfl
    · rw [if_neg h] at hxo
      subst hxo
      simp only [Bool.and_eq_true, decide_eq_true_eq, Bool.not_eq_true',
        not_and] at h
      cases hd : x.is_deleted
      · exact absurd (h hlt) (by simp [hd])
      · rfl
  refine ⟨h1, ?_⟩
  have h2 : (soft_delete_old_records (soft_delete_old_records db cutoff).2 cutoff).1 =
      ((soft_delete_old_records db cutoff).2).countP
        (fun o => decide (o.timestamp < cutoff) && !o.is_deleted) := rfl
  rw [h2, List.countP_eq_zero]
  intro o ho
  simp only [Bool.and_eq_true, decide_eq_true_eq, Bool.not_eq_true', not_and]
  intro hlt
  simp [h1 o ho hlt]

/-- C9 witness: a store with one stale record sweeps once and then
reports zero on the repeated sweep. -/
theorem soft_delete_idempotent_witness :
    (∀ o ∈ (soft_delete_old_records [berlinObs] 500).2,
      o.timestamp < 500 → o.is_deleted = true) ∧
    (soft_delete_old_records (soft_delete_old_records [berlinObs] 500).2 500).1 = 0 :=
  soft_delete_idempotent [berlinObs] 500

/-- C4: with default thresholds and an empty alert store, the scenario
observation (36.5 degrees, humidity 70, condition Clear) makes
check_and_create_alerts create exactly one alert, a warning-severity
HIGH_TEMPERATURE alert whose condition records actual value 36.5. -/
theorem scenario_high_temperature_alert :
    check_and_create_alerts defaultSettings 500 "Pune" [puneObs] [] =
      ([0],
       [{ city := "Pune", alert_type := .HIGH_TEMPERATURE, severity := .warning,
          triggered_at := 500,
          condition := { threshold_type := "temperature", threshold_value := 35,
                         actual_value := 36.5, operator := ">", unit := some "°C" },
          is_acknowledged := false, acknowledged_at := none,
          acknowledged_by := none }]) := by
  norm_num [check_and_create_alerts, get_latest_weather, latestIn, run_rule_checks,
    run_rule_check, check_recent_similar_alert, insert_alert, alertRules, mkRuleAlert,
    highTemperatureRule, lowTemperatureRule, highHumidityRule, extremeWeatherRule,
    defaultSettings, puneObs]
  simp

/-- C10: check_and_create_alerts always hands its caller a plain id list:
a store failure that escapes the per-rule checks (in particular a failed
latest-observation fetch) is swallowed by the outer handler into the
empty list, while a store failure inside one rule check only silences
that rule. -/
theorem check_alerts_total (s : Settings) (b : AlertStoreBehavior) :
    (∀ e, check_and_create_alerts_fx_body s b = .error e →
      check_and_create_alerts_fx s b = []) ∧
    (b.latest = .error () → check_and_create_alerts_fx s b = []) ∧
    (b.latest = .ok none → check_and_create_alerts_fx s b = []) ∧
    (∀ w, b.latest = .ok (some w) →
      check_and_create_alerts_fx s b =
        (alertRules.map (fun r => run_rule_check_fx r s b w)).filterMap id) ∧
    (∀ r w, b.cooldown r.ty = .error () → run_rule_check_fx r s b w = none) ∧
    (∀ r w, b.insert r.ty = .error () → run_rule_check_fx r s b w = none) := by
  refine ⟨?_, ?_, ?_, ?_, ?_, ?_⟩
  · intro e he
    simp [check_and_create_alerts_fx, he]
  · intro hl
    simp [check_and_create_alerts_fx, check_and_create_alerts_fx_body, hl]
  · intro hl
    simp [check_and_create_alerts_fx, check_and_create_alerts_fx_body, hl]
  · intro w hl
    simp [check_and_create_alerts_fx, check_and_create_alerts_fx_body, hl]
  · intro r w hc
    simp only [run_rule_check_fx, hc]
    split <;> rfl
  · intro r w hi
    simp only [run_rule_check_fx, hi]
    split
    · split
      · rfl
      · rfl
      · rfl
    · rfl

/-- C10 witness: a failed latest-observation fetch yields the empty id
list. -/
theorem check_alerts_total_witness :
    ({ latest := .error (), cooldown := fun _ => .ok false,
       insert := fun _ => .ok 0 } : AlertStoreBehavior).latest = .error () ∧
    check_and_create_alerts_fx defaultSettings
      { latest := .error (), cooldown := fun _ => .ok false,
        insert := fun _ => .ok 0 } = [] :=
  ⟨rfl,
   (check_alerts_total defaultSettings
     { latest := .error (), cooldown := fun _ => .ok false,
       insert := fun _ => .ok 0 }).2.1 rfl⟩

/-- C2 counterexample: a build whose today-stats aggregation raises a
store error still returns a summary; the summary carries the zero
defaults for today stats instead of the build being aborted. -/
theorem partial_summary_returned :
    cexDashBehavior.todayStats = .error () ∧
    (generate_dashboard_summary_fx 900 "Pune" cexDashBehavior).map
      (·.today_stats) = some zeroTodayStats := by
  exact ⟨rfl, rfl⟩

/-- C2 amended: only a failure of the latest-observation fetch or of the
condition-distribution query aborts the build; a store failure inside the
today-stats, hourly-trend or daily-trend sub-computation is caught in
that sub-step and replaced by zeroed stats or an empty trend, and the
partial summary is still returned. -/
theorem dashboard_failure_policy (now : ℕ) (city : String)
    (b : DashStoreBehavior) :
    (b.latest = .error () → generate_dashboard_summary_fx now city b = none) ∧
    (b.latest = .ok none → generate_dashboard_summary_fx now city b = none) ∧
    (b.distribution = .error () →
      generate_dashboard_summary_fx now city b = none) ∧
    (∀ w dist, b.latest = .ok (some w) → b.distribution = .ok dist →
      ∃ s, generate_dashboard_summary_fx now city b = some s ∧
        (b.todayStats = .error () → s.today_stats = zeroTodayStats) ∧
        (b.hourlyData = .error () → s.hourly_trend = []) ∧
        (b.dailyData = .error () → s.daily_trend = [])) := by
  refine ⟨?_, ?_, ?_, ?_⟩
  · intro hl
    simp [generate_dashboard_summary_fx, hl]
  · intro hl
    simp [generate_dashboard_summary_fx, hl]
  · intro hd
    simp only [generate_dashboard_summary_fx, hd]
    split <;> rfl
  · intro w dist hl hd
    simp only [generate_dashboard_summary_fx, hl, hd]
    refine ⟨_, rfl, ?_, ?_, ?_⟩
    · intro ht
      simp [generate_today_stats_fx, ht]
    · intro hh
      simp [generate_hourly_trend_fx, hh]
    · intro hdd
      simp [generate_daily_trend_fx, hdd]

/-- C2 amended witness: the concrete failing-today-stats behaviour
produces a summary with zeroed today stats. -/
theorem dashboard_failure_policy_witness :
    cexDashBehavior.latest = .ok (some cexObs) ∧
    ∃ s, generate_dashboard_summary_fx 900 "Pune" cexDashBehavior = some s ∧
      (cexDashBehavior.todayStats = .error () → s.today_stats = zeroTodayStats) ∧
      (cexDashBehavior.hourlyData = .error () → s.hourly_trend = []) ∧
      (cexDashBehavior.dailyData = .error () → s.daily_trend = []) :=
  ⟨rfl,
   (dashboard_failure_policy 900 "Pune" cexDashBehavior).2.2.2 cexObs
     [("Clouds", 1)] rfl rfl⟩

/-- C8: for a city with no stored observations the populate task reports
no data, persists nothing and the generation step returns before any
aggregation. -/
theorem empty_city_no_data (now : ℕ) (city : String) (wdb : List WeatherObs)
    (sdb : List DashboardSummary) (h : ∀ o ∈ wdb, o.city ≠ city) :
    populate_dashboard_summary now wdb sdb city = (.no_data, sdb) ∧
    generate_dashboard_summary now wdb city = none := by
  have hl : get_latest_weather wdb city = none := by
    unfold get_latest_weather
    have hf : wdb.filter (fun o => o.city == city && !o.is_deleted) = [] := by
      rw [List.filter_eq_nil_iff]
      intro o ho
      simp [h o ho]
    rw [hf]
    rfl
  have hg : generate_dashboard_summary now wdb city = none := by
    simp [generate_dashboard_summary, hl]
  exact ⟨by simp [populate_dashboard_summary, hg], hg⟩

/-- C8 witness: a store holding only another city's observation yields
the no-data outcome with the summary store untouched. -/
theorem empty_city_no_data_witness :
    (∀ o ∈ [berlinObs], o.city ≠ "Pune") ∧
    populate_dashboard_summary 2000 [berlinObs] [] "Pune" = (.no_data, []) ∧
    generate_dashboard_summary 2000 [berlinObs] "Pune" = none :=
  ⟨by decide,
   (empty_city_no_data 2000 "Pune" [berlinObs] [] (by decide)).1,
   (empty_city_no_data 2000 "Pune" [berlinObs] [] (by decide)).2⟩

/-- C3: acknowledging an existing, not yet acknowledged alert succeeds
and mutates exactly that alert, setting is_acknowledged, acknowledged_at
and acknowledged_by and preserving every other field and every other
alert; a missing id, or an update that modifies zero documents, fails
with NotFound. -/
theorem acknowledge_spec (db : List AlertLog) (i : ℕ) (user : String) (now : ℤ) :
    (∀ a, db[i]? = some a → a.is_acknowledged = false →
      acknowledge_alert_service db i user now =
        .ok (db.set i (ack_update a user now)) ∧
      (ack_update a user now).is_acknowledged = true ∧
      (ack_update a user now).acknowledged_at = some now ∧
      (ack_update a user now).acknowledged_by = some user ∧
      (ack_update a user now).city = a.city ∧
      (ack_update a user now).alert_type = a.alert_type ∧
      (ack_update a user now).severity = a.severity ∧
      (ack_update a user now).triggered_at = a.triggered_at ∧
      (ack_update a user now).condition = a.condition ∧
      (∀ j, i ≠ j → (db.set i (ack_update a user now))[j]? = db[j]?)) ∧
    (db[i]? = none → acknowledge_alert_service db i user now = .error .notFound) ∧
    (∀ a, db[i]? = some a → ack_update a user now = a →
      acknowledge_alert_service db i user now = .error .notFound) := by
  refine ⟨?_, ?_, ?_⟩
  · intro a ha hack
    have hne : ack_update a user now ≠ a := by
      intro he
      have h2 := congrArg AlertLog.is_acknowledged he
      simp [ack_update, hack] at h2
    refine ⟨?_, rfl, rfl, rfl, rfl, rfl, rfl, rfl, rfl, ?_⟩
    · simp [acknowledge_alert_service, acknowledge_alert, ha, hne]
    · intro j hj
      exact List.getElem?_set_ne hj
  · intro ha
    simp [acknowledge_alert_service, acknowledge_alert, ha]
  · intro a ha he
    simp [acknowledge_alert_service, acknowledge_alert, ha, he]

/-- Concrete unacknowledged alert for the acknowledge witness. -/
def wAlert : AlertLog :=
  { city := "Pune", alert_type := .HIGH_TEMPERATURE, severity := .warning,
    triggered_at := 100,
    condition := { threshold_type := "temperature", threshold_value := 35,
                   actual_value := 40, operator := ">", unit := some "°C" },
    is_acknowledged := false, acknowledged_at := none, acknowledged_by := none }

/-- C3 witness: acknowledging the one stored alert sets the three
acknowledge fields on it. -/
theorem acknowledge_spec_witness :
    ([wAlert][0]? = some wAlert ∧ wAlert.is_acknowledged = false) ∧
    acknowledge_alert_service [wAlert] 0 "ops" 999 =
      .ok [{ wAlert with
              is_acknowledged := true
              acknowledged_at := some 999
              acknowledged_by := some "ops" }] :=
  ⟨⟨rfl, rfl⟩, ((acknowledge_spec [wAlert] 0 "ops" 999).1 wAlert rfl rfl).1⟩

/-! ### Summary upsert lemmas for the at-most-one invariant -/

/-- Number of stored summaries with one (city, summary_type) key. -/
def countKey (db : List DashboardSummary) (c k : String) : ℕ :=
  db.countP (fun d => d.city == c && d.summary_type == k)

theorem countKey_upsert_of_not (db : List DashboardSummary)
    (s : DashboardSummary) (c k : String)
    (hs : (s.city == c && s.summary_type == k) = false) :
    countKey (upsert_summary db s) c k = countKey db c k := by
  induction db with
  | nil => simp [upsert_summary, countKey, List.countP_cons, hs]
  | cons d rest ih =>
    by_cases hd : (d.city == s.city && d.summary_type == s.summary_type) = true
    · rw [upsert_summary, if_pos hd]
      have hdk : (d.city == c && d.summary_type == k) = false := by
        simp only [Bool.and_eq_true, beq_iff_eq] at hd
        simp only [Bool.and_eq_false_iff, beq_eq_false_iff_ne] at hs ⊢
        rw [hd.1, hd.2]
        exact hs
      simp [countKey, List.countP_cons, hs, hdk]
    · rw [upsert_summary, if_neg hd]
      simp [countKey, List.countP_cons] at ih ⊢
      rw [ih]

theorem countKey_upsert_le (db : List DashboardSummary)
    (s : DashboardSummary) (c k : String) (h : countKey db c k ≤ 1) :
    countKey (upsert_summary db s) c k ≤ 1 := by
  induction db with
  | nil =>
    by_cases hs : (s.city == c && s.summary_type == k) = true <;>
      simp [upsert_summary, countKey, List.countP_cons, hs]
  | cons d rest ih =>
    by_cases hd : (d.city == s.city && d.summary_type == s.summary_type) = true
    · rw [upsert_summary, if_pos hd]
      have hds : (d.city == c && d.summary_type == k) =
          (s.city == c && s.summary_type == k) := by
        simp only [Bool.and_eq_true, beq_iff_eq] at hd
        rw [hd.1, hd.2]
      simp only [countKey, List.countP_cons] at h ⊢
      rw [← hds]
      exact h
    · rw [upsert_summary, if_neg hd]
      by_cases hdk : (d.city == c && d.summary_type == k) = true
      · by_cases hs : (s.city == c && s.summary_type == k) = true
        · exfalso
          apply hd
          simp only [Bool.and_eq_true, beq_iff_eq] at hdk hs ⊢
          exact ⟨hdk.1.trans hs.1.symm, hdk.2.trans hs.2.symm⟩
        · have := countKey_upsert_of_not rest s c k (by simpa using hs)
          simp only [countKey, List.countP_cons, hdk] at h ⊢
          simp only [countKey] at this
          omega
      · have hr : countKey rest c k ≤ 1 := by
          simp only [countKey, List.countP_cons, hdk] at h ⊢
          simpa using h
        have := ih hr
        simp only [countKey, List.countP_cons, hdk] at this ⊢
        simpa using this

theorem upsert_filter_key (db : List DashboardSummary) (s : DashboardSummary)
    (h : countKey db s.city s.summary_type ≤ 1) :
    (upsert_summary db s).filter
      (fun d => d.city == s.city && d.summary_type == s.summary_type) = [s] := by
  induction db with
  | nil => simp [upsert_summary]
  | cons d rest ih =>
    by_cases hd : (d.city == s.city && d.summary_type == s.summary_type) = true
    · rw [upsert_summary, if_pos hd]
      have hr : countKey rest s.city s.summary_type = 0 := by
        simp only [countKey, List.countP_cons, hd, if_true] at h
        simp only [countKey]
        omega
      have hrf : rest.filter
          (fun d => d.city == s.city && d.summary_type == s.summary_type) = [] := by
        rw [List.filter_eq_nil_iff]
        intro d hdm
        simp only [countKey, List.countP_eq_zero] at hr
        simpa using hr d hdm
      simp [List.filter_cons, hrf]
    · rw [upsert_summary, if_neg hd]
      have hr : countKey rest s.city s.summary_type ≤ 1 := by
        simp only [countKey, List.countP_cons, hd] at h
        simpa using h
      rw [List.filter_cons]
      simp only [hd]
      exact ih hr

/-- C6: the summary store keeps at most one document per (city, kind)
key: starting from any store satisfying the invariant, any sequence of
saves preserves it, and saving a summary makes the stored document for
its key exactly that summary, every field replaced. -/
theorem summary_upsert_unique :
    (∀ (db : List DashboardSummary) (c k : String), countKey db c k ≤ 1 →
      ∀ saves : List DashboardSummary,
        countKey (List.foldl upsert_summary db saves) c k ≤ 1) ∧
    (∀ (db : List DashboardSummary) (s : DashboardSummary),
      countKey db s.city s.summary_type ≤ 1 →
      get_latest_summary (upsert_summary db s) s.city s.summary_type = some s) := by
  constructor
  · intro db c k h saves
    induction saves generalizing db with
    | nil => exact h
    | cons s rest ih =>
      exact ih (upsert_summary db s) (countKey_upsert_le db s c k h)
  · intro db s h
    unfold get_latest_summary
    rw [upsert_filter_key db s h]
    rfl

/-- Concrete summaries sharing a key for the upsert witness. -/
def w1Summary : DashboardSummary :=
  { city := "Pune", summary_type := "hourly", generated_at := 10,
    current_weather := { temperature := 20, feels_like := 20, humidity := 50,
                         pressure := 1000, weather_main := "Clouds", wind_speed := 2 },
    today_stats := zeroTodayStats, hourly_trend := [], daily_trend := [],
    weather_distribution := [] }

/-- Second summary of the same key with every field different. -/
def w2Summary : DashboardSummary :=
  { city := "Pune", summary_type := "hourly", generated_at := 70,
    current_weather := { temperature := 25, feels_like := 26, humidity := 40,
                         pressure := 990, weather_main := "Clear", wind_speed := 4 },
    today_stats := zeroTodayStats, hourly_trend := [], daily_trend := [],
    weather_distribution := [("Clear", 3)] }

/-- C6 witness: after saving two summaries of the same key the store
holds one document for it, and it is the second summary. -/
theorem summary_upsert_unique_witness :
    (countKey [] "Pune" "hourly" ≤ 1 ∧
      countKey (List.foldl upsert_summary [] [w1Summary, w2Summary]) "Pune" "hourly" ≤ 1) ∧
    (countKey [w1Summary] w2Summary.city w2Summary.summary_type ≤ 1 ∧
      get_latest_summary (upsert_summary [w1Summary] w2Summary)
        w2Summary.city w2Summary.summary_type = some w2Summary) :=
  ⟨⟨by decide, summary_upsert_unique.1 [] "Pune" "hourly" (by decide)
      [w1Summary, w2Summary]⟩,
   ⟨by decide, summary_upsert_unique.2 [w1Summary] w2Summary (by decide)⟩⟩

/-! ### Soft-delete visibility lemmas -/

theorem latestIn_mem {l : List WeatherObs} {x : WeatherObs}
    (h : latestIn l = some x) : x ∈ l := by
  induction l with
  | nil => simp [latestIn] at h
  | cons o rest ih =>
    rw [latestIn] at h
    cases hr : latestIn rest with
    | none =>
      rw [hr] at h
      simp at h
      simp [h]
    | some b =>
      rw [hr] at h
      dsimp only at h
      by_cases hb : b.timestamp ≤ o.timestamp
      · rw [if_pos hb] at h
        simp at h
        simp [h]
      · rw [if_neg hb] at h
        simp at h
        subst h
        exact List.mem_cons_of_mem o (ih hr)

theorem filter_absorb_not_deleted (db : List WeatherObs)
    (p : WeatherObs → Bool) :
    (db.filter (fun x => !x.is_deleted)).filter (fun o => p o && !o.is_deleted) =
      db.filter (fun o => p o && !o.is_deleted) := by
  rw [List.filter_filter]
  apply List.filter_congr
  intro o _
  cases hp : p o <;> cases hd : o.is_deleted <;> simp [hp, hd]

/-- C7: a soft-deleted observation is invisible to every read: it is
never the latest document, never appears in a range query, contributes to
no statistics row and to no condition histogram (both are functions of
the non-deleted documents only), and no sweep resurrects it. -/
theorem no_resurrection (db : List WeatherObs) (o : WeatherObs) (city : String)
    (start stop cutoff csd : ℕ) (lim : Option ℕ)
    (ho : o ∈ db) (hdel : o.is_deleted = true) :
    get_latest_weather db city ≠ some o ∧
    o ∉ get_weather_by_time_range db city start stop lim ∧
    get_weather_stats db city start stop =
      get_weather_stats (db.filter (fun x => !x.is_deleted)) city start stop ∧
    get_weather_distribution db city cutoff =
      get_weather_distribution (db.filter (fun x => !x.is_deleted)) city cutoff ∧
    o ∈ (soft_delete_old_records db csd).2 := by
  refine ⟨?_, ?_, ?_, ?_, ?_⟩
  · intro h
    have hm := latestIn_mem h
    have := (List.mem_filter.mp hm).2
    simp [hdel] at this
  · intro h
    have hm : o ∈ db.filter
        (fun x => x.city == city && start ≤ x.timestamp && x.timestamp ≤ stop
          && !x.is_deleted) := by
      unfold get_weather_by_time_range at h
      have hs : o ∈ List.insertionSort (fun a b => b.timestamp ≤ a.timestamp)
          (db.filter (fun x => x.city == city && start ≤ x.timestamp
            && x.timestamp ≤ stop && !x.is_deleted)) := by
        cases lim with
        | none => exact h
        | some n => exact List.mem_of_mem_take h
      exact (List.mem_insertionSort _).mp hs
    have := (List.mem_filter.mp hm).2
    simp [hdel] at this
  · unfold get_weather_stats
    rw [filter_absorb_not_deleted db
      (fun x => x.city == city && start ≤ x.timestamp && x.timestamp ≤ stop)]
  · unfold get_weather_distribution
    rw [filter_absorb_not_deleted db
      (fun x => x.city == city && cutoff ≤ x.timestamp)]
  · unfold soft_delete_old_records
    refine List.mem_map.mpr ⟨o, ho, ?_⟩
    simp [hdel]

/-- Concrete soft-deleted observation for the C7 witness. -/
def deadObs : WeatherObs :=
  { city := "Pune", timestamp := 50, temp_current := 21, temp_min := 19,
    temp_max := 23, feels_like := 21, humidity := 45, pressure := 1005,
    weather_main := "Haze", wind_speed := 1, is_deleted := true }

/-- C7 witness: the concrete deleted observation next to a live one is
invisible to the reads and stays deleted. -/
theorem no_resurrection_witness :
    (deadObs ∈ [deadObs, cexObs] ∧ deadObs.is_deleted = true) ∧
    get_latest_weather [deadObs, cexObs] "Pune" ≠ some deadObs ∧
    deadObs ∉ get_weather_by_time_range [deadObs, cexObs] "Pune" 0 2000 none ∧
    deadObs ∈ (soft_delete_old_records [deadObs, cexObs] 1000).2 :=
  ⟨⟨List.mem_cons_self deadObs [cexObs], rfl⟩,
   (no_resurrection [deadObs, cexObs] deadObs "Pune" 0 2000 100 1000 none
     (List.mem_cons_self deadObs [cexObs]) rfl).1,
   (no_resurrection [deadObs, cexObs] deadObs "Pune" 0 2000 100 1000 none
     (List.mem_cons_self deadObs [cexObs]) rfl).2.1,
   (no_resurrection [deadObs, cexObs] deadObs "Pune" 0 2000 100 1000 none
     (List.mem_cons_self deadObs [cexObs]) rfl).2.2.2.2⟩

/-! ### Trend ordering lemmas -/

theorem sortedDesc_facts (l : List ℕ) (hl : l.Nodup) (n : ℕ) :
    ((List.insertionSort geKey l).take n).Nodup ∧
    (∀ k ∈ l, k ∉ (List.insertionSort geKey l).take n →
      ∀ k2 ∈ (List.insertionSort geKey l).take n, k < k2) := by
  have hperm : List.Perm (List.insertionSort geKey l) l := List.perm_insertionSort geKey l
  have hnd : (List.insertionSort geKey l).Nodup := hperm.symm.nodup hl
  have hsorted : List.Sorted geKey (List.insertionSort geKey l) :=
    List.sorted_insertionSort geKey l
  refine ⟨hnd.sublist (List.take_sublist n _), ?_⟩
  intro k hk hnk k2 hk2
  have hksort : k ∈ List.insertionSort geKey l := hperm.mem_iff.mpr hk
  have hkdrop : k ∈ (List.insertionSort geKey l).drop n := by
    rw [← List.take_append_drop n (List.insertionSort geKey l)] at hksort
    rcases List.mem_append.mp hksort with h1 | h2
    · exact absurd h1 hnk
    · exact h2
  have hle : geKey k2 k := hsorted.rel_of_mem_take_of_mem_drop hk2 hkdrop
  have hne : k ≠ k2 := by
    intro he
    subst he
    have hnd2 := hnd
    rw [← List.take_append_drop n (List.insertionSort geKey l),
      List.nodup_append] at hnd2
    exact hnd2.2.2 hk2 hkdrop
  exact lt_of_le_of_ne hle hne

theorem trend_shape {α : Type} (R : α → α → Prop) [DecidableRel R]
    [IsTotal α R] [IsTrans α R] (proj : α → ℕ)
    (hR : ∀ a b, R a b → proj a ≤ proj b) (agg : ℕ → α)
    (hagg : ∀ k, proj (agg k) = k) (K : List ℕ) (hK : K.Nodup) (n : ℕ) :
    ((List.insertionSort R
        (((List.insertionSort geKey K).take n).map agg)).map proj).Pairwise (· < ·) ∧
    (List.insertionSort R
        (((List.insertionSort geKey K).take n).map agg)).length ≤ n ∧
    (∀ k ∈ K,
      k ∉ (List.insertionSort R
        (((List.insertionSort geKey K).take n).map agg)).map proj →
      ∀ k2 ∈ (List.insertionSort R
        (((List.insertionSort geKey K).take n).map agg)).map proj, k < k2) := by
  have hkept := sortedDesc_facts K hK n
  set kept := (List.insertionSort geKey K).take n with hkeptdef
  set final := List.insertionSort R (kept.map agg) with hfinaldef
  have hmapT : (kept.map agg).map proj = kept := by
    rw [List.map_map]
    have hc : ∀ k ∈ kept, (proj ∘ agg) k = id k := fun k _ => hagg k
    rw [List.map_congr_left hc, List.map_id]
  have hfperm : List.Perm final (kept.map agg) := List.perm_insertionSort R _
  have hfmp : List.Perm (final.map proj) kept := by
    have := hfperm.map proj
    rwa [hmapT] at this
  have hsf : List.Sorted R final := List.sorted_insertionSort R _
  have hple : (final.map proj).Pairwise (· ≤ ·) := by
    rw [List.pairwise_map]
    exact hsf.imp (fun h => hR _ _ h)
  have hnd : (final.map proj).Nodup := hfmp.symm.nodup hkept.1
  refine ⟨?_, ?_, ?_⟩
  · exact (hple.and hnd).imp (fun h => lt_of_le_of_ne h.1 h.2)
  · rw [List.length_insertionSort, List.length_map, hkeptdef, List.length_take]
    exact min_le_left _ _
  · intro k hk hnk k2 hk2
    exact hkept.2 k hk (fun hx => hnk (hfmp.mem_iff.mpr hx)) k2
      (hfmp.mem_iff.mp hk2)

/-- C5: both trend sequences come out strictly ordered oldest to newest
on their bucket keys, hold at most 24 and 7 points, and any bucket key of
the data that was dropped is older than every retained bucket. -/
theorem trend_ordering (hdata ddata : List WeatherObs) :
    ((generate_hourly_trend hdata).map (·.hour)).Pairwise (· < ·) ∧
    (generate_hourly_trend hdata).length ≤ 24 ∧
    (∀ k ∈ (hdata.map hourKeyOf).dedup,
      k ∉ (generate_hourly_trend hdata).map (·.hour) →
      ∀ k2 ∈ (generate_hourly_trend hdata).map (·.hour), k < k2) ∧
    ((generate_daily_trend ddata 7).map (·.date)).Pairwise (· < ·) ∧
    (generate_daily_trend ddata 7).length ≤ 7 ∧
    (∀ k ∈ (ddata.map dayKeyOf).dedup,
      k ∉ (generate_daily_trend ddata 7).map (·.date) →
      ∀ k2 ∈ (generate_daily_trend ddata 7).map (·.date), k < k2) := by
  have hourly : ∀ data : List WeatherObs,
      ((generate_hourly_trend data).map (·.hour)).Pairwise (· < ·) ∧
      (generate_hourly_trend data).length ≤ 24 ∧
      (∀ k ∈ (data.map hourKeyOf).dedup,
        k ∉ (generate_hourly_trend data).map (·.hour) →
        ∀ k2 ∈ (generate_hourly_trend data).map (·.hour), k < k2) := by
    intro data
    by_cases hemp : data.isEmpty
    · simp [generate_hourly_trend, hemp]
    · have h := trend_shape hourLE (·.hour) (fun a b hab => hab)
        (aggregate_hour data) (fun k => rfl) (data.map hourKeyOf).dedup
        (List.nodup_dedup _) 24
      simpa [generate_hourly_trend, hemp] using h
  have daily : ∀ data : List WeatherObs,
      ((generate_daily_trend data 7).map (·.date)).Pairwise (· < ·) ∧
      (generate_daily_trend data 7).length ≤ 7 ∧
      (∀ k ∈ (data.map dayKeyOf).dedup,
        k ∉ (generate_daily_trend data 7).map (·.date) →
        ∀ k2 ∈ (generate_daily_trend data 7).map (·.date), k < k2) := by
    intro data
    by_cases hemp : data.isEmpty
    · simp [generate_daily_trend, hemp]
    · have h := trend_shape dayLE (·.date) (fun a b hab => hab)
        (aggregate_day data) (fun k => rfl) (data.map dayKeyOf).dedup
        (List.nodup_dedup _) 7
      simpa [generate_daily_trend, hemp] using h
  exact ⟨(hourly hdata).1, (hourly hdata).2.1, (hourly hdata).2.2,
    (daily ddata).1, (daily ddata).2.1, (daily ddata).2.2⟩

/-- Twenty-six observations spaced one hour apart, so that the hourly
trend must drop the two oldest buckets. -/
def wTrendData : List WeatherObs :=
  (List.range 26).map (fun i =>
    { city := "Pune", timestamp := 60 * i, temp_current := 20, temp_min := 18,
      temp_max := 22, feels_like := 20, humidity := 50, pressure := 1000,
      weather_main := "Clouds", wind_speed := 2, is_deleted := false })

/-- C5 witness: on the 26-hour data set the hourly trend is strictly
increasing, has at most 24 points, and the dropped hour 0 is older than
the retained hour 2. -/
theorem trend_ordering_witness :
    ((generate_hourly_trend wTrendData).map (·.hour)).Pairwise (· < ·) ∧
    (generate_hourly_trend wTrendData).length ≤ 24 ∧
    (0 ∈ (wTrendData.map hourKeyOf).dedup ∧
      0 ∉ (generate_hourly_trend wTrendData).map (·.hour) ∧
      2 ∈ (generate_hourly_trend wTrendData).map (·.hour)) ∧
    0 < 2 :=
  ⟨(trend_ordering wTrendData []).1,
   (trend_ordering wTrendData []).2.1,
   ⟨by decide, by decide, by decide⟩,
   (trend_ordering wTrendData []).2.2.1 0 (by decide) (by decide) 2 (by decide)⟩

/-! ### Alert cooldown lemmas -/

/-- Number of stored alerts of one (city, rule type). -/
def countCT (db : List AlertLog) (c : String) (ty : AlertType) : ℕ :=
  db.countP (fun a => a.city == c && a.alert_type == ty)

theorem countCT_append (db l : List AlertLog) (c : String) (ty : AlertType) :
    countCT (db ++ l) c ty = countCT db c ty + countCT l c ty :=
  List.countP_append _ _ _

theorem check_recent_append_true (db l : List AlertLog) (c : String)
    (ty : AlertType) (now m : ℤ)
    (h : check_recent_similar_alert db c ty now m = true) :
    check_recent_similar_alert (db ++ l) c ty now m = true := by
  simp only [check_recent_similar_alert, List.countP_append,
    decide_eq_true_eq] at h ⊢
  omega

theorem check_recent_append_of_types (db l : List AlertLog) (c : String)
    (ty : AlertType) (now m : ℤ) (hl : ∀ a ∈ l, a.alert_type ≠ ty) :
    check_recent_similar_alert (db ++ l) c ty now m =
      check_recent_similar_alert db c ty now m := by
  have hz : l.countP (fun a => a.city == c && a.alert_type == ty
      && decide (now - m ≤ a.triggered_at)) = 0 := by
    rw [List.countP_eq_zero]
    intro a ha
    simp only [Bool.and_eq_true, beq_iff_eq, decide_eq_true_eq, not_and]
    intro h1
    exact absurd h1.2 (hl a ha)
  simp only [check_recent_similar_alert, List.countP_append, hz, Nat.add_zero]

theorem check_recent_of_mem (db : List AlertLog) (a : AlertLog) (c : String)
    (ty : AlertType) (now m : ℤ) (ha : a ∈ db) (hc : a.city = c)
    (hty : a.alert_type = ty) (ht : now - m ≤ a.triggered_at) :
    check_recent_similar_alert db c ty now m = true := by
  simp only [check_recent_similar_alert, decide_eq_true_eq]
  refine List.countP_pos_iff.mpr ⟨a, ha, ?_⟩
  simp [hc, hty, ht]

theorem run_rule_check_of_hot (r : RuleSpec) (s : Settings) (now : ℤ)
    (c : String) (w : WeatherObs) (db : List AlertLog)
    (h : check_recent_similar_alert db c r.ty now s.ALERT_COOLDOWN_MINUTES = true) :
    run_rule_check r s now c w db = (none, db) := by
  unfold run_rule_check
  by_cases ht : r.trip s w = true
  · rw [if_pos ht, if_pos h]
  · rw [if_neg ht]

theorem run_rule_check_of_cold (r : RuleSpec) (s : Settings) (now : ℤ)
    (c : String) (w : WeatherObs) (db : List AlertLog)
    (ht : r.trip s w = true)
    (h : check_recent_similar_alert db c r.ty now s.ALERT_COOLDOWN_MINUTES = false) :
    run_rule_check r s now c w db =
      (some db.length, db ++ [mkRuleAlert r s now c w]) := by
  unfold run_rule_check insert_alert
  rw [if_pos ht, if_neg (by simp [h])]

theorem run_rule_check_snd_cases (r : RuleSpec) (s : Settings) (now : ℤ)
    (c : String) (w : WeatherObs) (db : List AlertLog) :
    (run_rule_check r s now c w db).2 = db ∨
    (r.trip s w = true ∧
      check_recent_similar_alert db c r.ty now s.ALERT_COOLDOWN_MINUTES = false ∧
      (run_rule_check r s now c w db).2 = db ++ [mkRuleAlert r s now c w]) := by
  by_cases ht : r.trip s w = true
  · by_cases hh : check_recent_similar_alert db c r.ty now
        s.ALERT_COOLDOWN_MINUTES = true
    · left
      rw [run_rule_check_of_hot r s now c w db hh]
    · right
      have hf : check_recent_similar_alert db c r.ty now
          s.ALERT_COOLDOWN_MINUTES = false := by simpa using hh
      rw [run_rule_check_of_cold r s now c w db ht hf]
      exact ⟨ht, hf, rfl⟩
  · left
    unfold run_rule_check
    rw [if_neg ht]

theorem run_rule_checks_snd (r : RuleSpec) (rs : List RuleSpec) (s : Settings)
    (now : ℤ) (c : String) (w : WeatherObs) (db : List AlertLog) :
    (run_rule_checks (r :: rs) s now c w db).2 =
      (run_rule_checks rs s now c w (run_rule_check r s now c w db).2).2 := by
  rcases hh : run_rule_check r s now c w db with ⟨oid, db1⟩
  rcases hh2 : run_rule_checks rs s now c w db1 with ⟨ids, db2⟩
  simp [run_rule_checks, hh, hh2]

theorem run_rule_checks_spec (rules : List RuleSpec) (s : Settings) (now : ℤ)
    (c : String) (w : WeatherObs) (db : List AlertLog) :
    ∃ l, (run_rule_checks rules s now c w db).2 = db ++ l ∧
      (∀ a ∈ l, a.city = c ∧ a.triggered_at = now ∧
        a.alert_type ∈ rules.map (·.ty)) ∧
      (∀ ty, check_recent_similar_alert db c ty now
          s.ALERT_COOLDOWN_MINUTES = true → ∀ a ∈ l, a.alert_type ≠ ty) := by
  induction rules generalizing db with
  | nil => exact ⟨[], by simp [run_rule_checks], by simp, by simp⟩
  | cons r rest ih =>
    rcases run_rule_check_snd_cases r s now c w db with h2 | ⟨ht, hcold, h2⟩
    · rw [run_rule_checks_snd, h2]
      obtain ⟨l, hl, hprops, hcool⟩ := ih db
      refine ⟨l, hl, ?_, ?_⟩
      · intro a ha
        obtain ⟨p1, p2, p3⟩ := hprops a ha
        exact ⟨p1, p2, by simp only [List.map_cons]; exact List.mem_cons_of_mem _ p3⟩
      · intro ty hty a ha
        exact hcool ty hty a ha
    · rw [run_rule_checks_snd, h2]
      obtain ⟨l, hl, hprops, hcool⟩ := ih (db ++ [mkRuleAlert r s now c w])
      refine ⟨mkRuleAlert r s now c w :: l, ?_, ?_, ?_⟩
      · rw [hl, List.append_assoc]
        rfl
      · intro a ha
        rcases List.mem_cons.mp ha with rfl | ha'
        · exact ⟨rfl, rfl, by simp [mkRuleAlert]⟩
        · obtain ⟨p1, p2, p3⟩ := hprops a ha'
          exact ⟨p1, p2, by simp only [List.map_cons]; exact List.mem_cons_of_mem _ p3⟩
      · intro ty hty a ha
        rcases List.mem_cons.mp ha with rfl | ha'
        · intro hety
          have hrty : r.ty = ty := hety
          rw [hrty] at hcold
          rw [hty] at hcold
          cases hcold
        · exact hcool ty
            (check_recent_append_true db _ c ty now _ hty) a ha'

theorem run_rule_checks_hot (rules : List RuleSpec) (s : Settings) (now : ℤ)
    (c : String) (w : WeatherObs) (db : List AlertLog) (ty : AlertType)
    (h : check_recent_similar_alert db c ty now s.ALERT_COOLDOWN_MINUTES = true) :
    countCT (run_rule_checks rules s now c w db).2 c ty = countCT db c ty := by
  obtain ⟨l, hl, _, hcool⟩ := run_rule_checks_spec rules s now c w db
  rw [hl, countCT_append]
  have hz : countCT l c ty = 0 := by
    rw [countCT, List.countP_eq_zero]
    intro a ha
    simp only [Bool.and_eq_true, beq_iff_eq, not_and]
    intro _
    exact hcool ty h a ha
  omega

theorem run_rule_checks_creates (rules : List RuleSpec) (s : Settings)
    (now : ℤ) (c : String) (w : WeatherObs) (db : List AlertLog) (r : RuleSpec)
    (hmem : r ∈ rules) (hpair : rules.Pairwise (fun r1 r2 => r1.ty ≠ r2.ty))
    (htrip : r.trip s w = true)
    (hcold : check_recent_similar_alert db c r.ty now
      s.ALERT_COOLDOWN_MINUTES = false) :
    countCT (run_rule_checks rules s now c w db).2 c r.ty =
      countCT db c r.ty + 1 ∧
    ∃ a ∈ (run_rule_checks rules s now c w db).2,
      a.city = c ∧ a.alert_type = r.ty ∧ a.triggered_at = now := by
  induction rules generalizing db with
  | nil => simp at hmem
  | cons r0 rest ih =>
    rcases List.mem_cons.mp hmem with rfl | hmem'
    · have h2 := run_rule_check_of_cold r s now c w db htrip hcold
      rw [run_rule_checks_snd, h2]
      obtain ⟨l, hl, hprops, _⟩ :=
        run_rule_checks_spec rest s now c w (db ++ [mkRuleAlert r s now c w])
      have htypes : ∀ a ∈ l, a.alert_type ≠ r.ty := by
        intro a ha he
        obtain ⟨r2, hr2, he2⟩ := List.mem_map.mp (hprops a ha).2.2
        have hne : ∀ r2 ∈ rest, r.ty ≠ r2.ty := (List.pairwise_cons.mp hpair).1
        exact hne r2 hr2 (he ▸ he2).symm
      constructor
      · rw [hl, countCT_append, countCT_append]
        have hm : countCT [mkRuleAlert r s now c w] c r.ty = 1 := by
          simp [countCT, mkRuleAlert, List.countP_cons]
        have hz : countCT l c r.ty = 0 := by
          rw [countCT, List.countP_eq_zero]
          intro a ha
          simp only [Bool.and_eq_true, beq_iff_eq, not_and]
          intro _
          exact htypes a ha
        omega
      · refine ⟨mkRuleAlert r s now c w, ?_, rfl, rfl, rfl⟩
        rw [hl]
        simp
    · have hne0 : r.ty ≠ r0.ty := by
        have := (List.pairwise_cons.mp hpair).1 r hmem'
        exact fun he => this he.symm
      rcases run_rule_check_snd_cases r0 s now c w db with h2 | ⟨_, _, h2⟩
      · rw [run_rule_checks_snd, h2]
        exact ih db hmem' (List.pairwise_cons.mp hpair).2 hcold
      · rw [run_rule_checks_snd, h2]
        have hcold1 : check_recent_similar_alert
            (db ++ [mkRuleAlert r0 s now c w]) c r.ty now
            s.ALERT_COOLDOWN_MINUTES = false := by
          rw [check_recent_append_of_types]
          · exact hcold
          · intro a ha
            have haeq : a = mkRuleAlert r0 s now c w := by simpa using ha
            rw [haeq]
            exact fun he => hne0 (Eq.symm he)
        have hres := ih (db ++ [mkRuleAlert r0 s now c w]) hmem'
          (List.pairwise_cons.mp hpair).2 hcold1
        have hne0' : r0.ty ≠ r.ty := fun he => hne0 (Eq.symm he)
        have hm0 : countCT (db ++ [mkRuleAlert r0 s now c w]) c r.ty =
            countCT db c r.ty := by
          rw [countCT_append]
          have hz0 : countCT [mkRuleAlert r0 s now c w] c r.ty = 0 := by
            simp [countCT, List.countP_cons, mkRuleAlert, hne0']
          omega
        rw [hm0] at hres
        exact hres

/-- C1: when the same rule trips at two evaluations of a city within the
cooldown window, and no similar alert was live at the first evaluation,
exactly one alert of that (city, rule type) is created: the second
evaluation sees the first alert through the cooldown query and skips. -/
theorem alert_cooldown_dedup (s : Settings) (r : RuleSpec)
    (hr : r ∈ alertRules) (city : String) (wdb1 wdb2 : List WeatherObs)
    (w1 w2 : WeatherObs) (adb : List AlertLog) (t1 t2 : ℤ)
    (hw1 : get_latest_weather wdb1 city = some w1)
    (hw2 : get_latest_weather wdb2 city = some w2)
    (htrip1 : r.trip s w1 = true) (htrip2 : r.trip s w2 = true)
    (hcold : check_recent_similar_alert adb city r.ty t1
      s.ALERT_COOLDOWN_MINUTES = false)
    (hwin : t2 - t1 ≤ s.ALERT_COOLDOWN_MINUTES) :
    countCT (check_and_create_alerts s t2 city wdb2
        (check_and_create_alerts s t1 city wdb1 adb).2).2 city r.ty =
      countCT adb city r.ty + 1 := by
  have hpair : alertRules.Pairwise (fun r1 r2 => r1.ty ≠ r2.ty) := by
    simp [alertRules, highTemperatureRule, lowTemperatureRule,
      highHumidityRule, extremeWeatherRule]
  simp only [check_and_create_alerts, hw1, hw2]
  have h1 := run_rule_checks_creates alertRules s t1 city w1 adb r hr hpair
    htrip1 hcold
  obtain ⟨a, hamem, hac, haty, hat⟩ := h1.2
  have hhot : check_recent_similar_alert
      (run_rule_checks alertRules s t1 city w1 adb).2 city r.ty t2
      s.ALERT_COOLDOWN_MINUTES = true := by
    refine check_recent_of_mem _ a city r.ty t2 _ hamem hac haty ?_
    rw [hat]
    omega
  rw [run_rule_checks_hot alertRules s t2 city w2 _ r.ty hhot, h1.1]

/-- Hot observation used by the cooldown witness. -/
def hotObs : WeatherObs :=
  { city := "Pune", timestamp := 1200, temp_current := 40, temp_min := 35,
    temp_max := 41, feels_like := 42, humidity := 30, pressure := 1005,
    weather_main := "Clear", wind_speed := 3, is_deleted := false }

/-- C1 witness: two evaluations thirty minutes apart on a 40 degree
observation create one HIGH_TEMPERATURE alert in total. -/
theorem alert_cooldown_dedup_witness :
    check_recent_similar_alert [] "Pune" AlertType.HIGH_TEMPERATURE 1000
      defaultSettings.ALERT_COOLDOWN_MINUTES = false ∧
    highTemperatureRule.trip defaultSettings hotObs = true ∧
    (1030 : ℤ) - 1000 ≤ defaultSettings.ALERT_COOLDOWN_MINUTES ∧
    countCT (check_and_create_alerts defaultSettings 1030 "Pune" [hotObs]
        (check_and_create_alerts defaultSettings 1000 "Pune" [hotObs] []).2).2
      "Pune" AlertType.HIGH_TEMPERATURE =
      countCT [] "Pune" AlertType.HIGH_TEMPERATURE + 1 :=
  ⟨rfl, by decide, by decide,
   alert_cooldown_dedup defaultSettings highTemperatureRule
     (List.mem_cons_self highTemperatureRule
       [lowTemperatureRule, highHumidityRule, extremeWeatherRule])
     "Pune" [hotObs] [hotObs] hotObs hotObs [] 1000 1030 rfl rfl
     (by decide) (by decide) rfl (by decide)⟩

end WeatherPy
